import Mathlib

/-!
# The view switcher panel of darktable (`src/libs/tools/viewswitcher.c`)

A shallow embedding of the panel: the registry views it enumerates, the labels
and the dropdown it builds in `gui_init`, the mode-switch dispatch of
`_switch_view`, the hover handlers and the view-changed handler.

Conventions of the embedding

* C strings are `String` values (no NULL: every tag is the result of `v->name(v)`
  and the active-view name is the result of `dt_view_manager_name`), so
  `g_strcmp0(a, b) == 0` and `strcmp(a, b) == 0` are both `a = b`.
* `dt_ctl_switch_mode_to(m)` is observed through the list of modes requested, in
  call order; every function that can reach it returns that list.
* The GTK calls are modelled by their effect on the fields the file reads back:
  the state flags of a widget, the rows of the list store, the active row of the
  combo box, the block count of the `changed` handler and the children packed
  into the panel's box.
* The `DT_VIEW_*` ids and the `HAVE_*` build switches come from headers and the
  build system; they are parameters (`ViewIds`, `Build`).
* The `uint32_t` row counter of the view-changed handler wraps modulo `2 ^ 32` and
  is converted to the `gint` argument of `gtk_combo_box_set_active`.
-/

namespace Viewswitcher

/-! ## Data model -/

/-- The three values of `GtkStateFlags` the file passes to
`gtk_widget_set_state_flags`. -/
inductive GtkStateFlags where
  | GTK_STATE_FLAG_NORMAL
  | GTK_STATE_FLAG_PRELIGHT
  | GTK_STATE_FLAG_SELECTED
  deriving DecidableEq

/-- The modes handed to `dt_ctl_switch_mode_to` by `_switch_view`. -/
inductive dt_ctl_gui_mode_t where
  | DT_LIBRARY
  | DT_DEVELOP
  | DT_CAPTURE
  | DT_MAP
  | DT_SLIDESHOW
  | DT_PRINT
  deriving DecidableEq

/-- The integer constants `DT_VIEW_*` compared against in `_switch_view`; their
values are declared outside this file and are taken as parameters. -/
structure ViewIds where
  DT_VIEW_LIGHTTABLE : Int
  DT_VIEW_DARKROOM : Int
  DT_VIEW_TETHERING : Int
  DT_VIEW_MAP : Int
  DT_VIEW_SLIDESHOW : Int
  DT_VIEW_PRINT : Int

/-- The enumeration constants are pairwise different integers. -/
def ViewIds.distinct (ids : ViewIds) : Prop :=
  [ids.DT_VIEW_LIGHTTABLE, ids.DT_VIEW_DARKROOM, ids.DT_VIEW_TETHERING,
   ids.DT_VIEW_MAP, ids.DT_VIEW_SLIDESHOW, ids.DT_VIEW_PRINT].Nodup

instance (ids : ViewIds) : Decidable ids.distinct := by
  unfold ViewIds.distinct; infer_instance

/-- The preprocessor switches that guard branches of `_switch_view`. -/
structure Build where
  HAVE_GPHOTO2 : Bool
  HAVE_MAP : Bool
  HAVE_PRINT : Bool

/-- The fields of a registry entry `darktable.view_manager->view[k]` read by
`gui_init`: `module` (non-NULL when loaded), `module_name`, and the results of
the `name` and `view` callbacks. -/
structure dt_view_t where
  module : Bool
  module_name : String
  name : String
  view : Int
  deriving DecidableEq

/-- A label widget kept in `d->labels`: its `"view-label"` object data and its
state flags. The event box around it carries the same `"view-label"` data. -/
structure Label where
  view_label : String
  state : GtkStateFlags
  deriving DecidableEq

/-- One row of the list store, by column. -/
structure Row where
  TEXT_COLUMN : String
  VIEW_COLUMN : Int
  SENSITIVE_COLUMN : Bool
  deriving DecidableEq

/-- The combo box `d->dropdown` together with its list store: the rows, the
active row (`none` is GTK's index `-1`), the widget state flags and the block
count of the connected `_dropdown_changed` handler. -/
structure Dropdown where
  model : List Row
  active : Option Nat
  state : GtkStateFlags
  block_count : Nat
  deriving DecidableEq

/-- The panel data `dt_lib_viewswitcher_t`; `dropdown = none` is the NULL
pointer. -/
structure dt_lib_viewswitcher_t where
  labels : List Label
  dropdown : Option Dropdown
  deriving DecidableEq

/-- A child packed into the horizontal box `self->widget`, in packing order. -/
inductive BoxChild where
  | label (text : String)
  | divider
  | dropdown
  deriving DecidableEq

/-- The parts of `dt_lib_module_t` written by `gui_init`: `self->data` and the
children of `self->widget`. -/
structure dt_lib_module_t where
  data : dt_lib_viewswitcher_t
  widget : List BoxChild
  deriving DecidableEq

/-! ## Mode-switch dispatch -/

/-- The function `_switch_view`: the list of `dt_ctl_switch_mode_to` calls it makes. -/
def _switch_view (ids : ViewIds) (b : Build) (which : Int) : List dt_ctl_gui_mode_t :=
  if which = ids.DT_VIEW_LIGHTTABLE then [.DT_LIBRARY]
  else if which = ids.DT_VIEW_DARKROOM then [.DT_DEVELOP]
  else if b.HAVE_GPHOTO2 = true ∧ which = ids.DT_VIEW_TETHERING then [.DT_CAPTURE]
  else if b.HAVE_MAP = true ∧ which = ids.DT_VIEW_MAP then [.DT_MAP]
  else if which = ids.DT_VIEW_SLIDESHOW then [.DT_SLIDESHOW]
  else if b.HAVE_PRINT = true ∧ which = ids.DT_VIEW_PRINT then [.DT_PRINT]
  else []

/-- The handler `_lib_viewswitcher_button_press_callback`: `button` is
`ev->button`, `user_data` the view id stored with `GINT_TO_POINTER`; the result
is the returned `gboolean` and the mode-switch requests issued. -/
def _lib_viewswitcher_button_press_callback (ids : ViewIds) (b : Build) (button : Nat)
    (user_data : Int) : Bool × List dt_ctl_gui_mode_t :=
  if button = 1 then (true, _switch_view ids b user_data) else (false, [])

/-- The handler `_dropdown_changed`: when the combo box has an active row, switch
to the view id stored in its `VIEW_COLUMN`. -/
def _dropdown_changed (ids : ViewIds) (b : Build) (dd : Dropdown) : List dt_ctl_gui_mode_t :=
  match dd.active with
  | some i =>
    match dd.model[i]? with
    | some r => _switch_view ids b r.VIEW_COLUMN
    | none => []
  | none => []

/-! ## Toolkit calls -/

/-- Emission of the combo box's `changed` signal: the connected handler
`_dropdown_changed` runs unless it is blocked. -/
def emit_changed (ids : ViewIds) (b : Build) (dd : Dropdown) : List dt_ctl_gui_mode_t :=
  if dd.block_count = 0 then _dropdown_changed ids b dd else []

/-- The call `g_signal_handlers_block_by_func(d->dropdown, _dropdown_changed, d)`. -/
def g_signal_handlers_block_by_func (dd : Dropdown) : Dropdown :=
  { dd with block_count := dd.block_count + 1 }

/-- The call `g_signal_handlers_unblock_by_func(d->dropdown, _dropdown_changed, d)`;
a handler that is not blocked stays so. -/
def g_signal_handlers_unblock_by_func (dd : Dropdown) : Dropdown :=
  { dd with block_count := dd.block_count - 1 }

/-- The call `gtk_combo_box_set_active(combo, index_)` with a `gint` index: an
index below `-1` is rejected; `-1` clears the active row; the index of the row
that is already active changes nothing; any other index makes that row active
(no row when the index is past the end) and emits `changed`. -/
def gtk_combo_box_set_active (ids : ViewIds) (b : Build) (dd : Dropdown) (index_ : Int) :
    Dropdown × List dt_ctl_gui_mode_t :=
  if index_ < -1 then (dd, [])
  else if index_ = -1 then
    if dd.active = none then (dd, [])
    else (fun dd1 => (dd1, emit_changed ids b dd1)) { dd with active := none }
  else if dd.active = some index_.toNat then (dd, [])
  else
    (fun dd1 => (dd1, emit_changed ids b dd1))
      { dd with active := if index_.toNat < dd.model.length then some index_.toNat else none }

/-- The call `gtk_widget_set_state_flags(d->dropdown, flags, TRUE)`. -/
def Dropdown.set_state_flags (dd : Dropdown) (flags : GtkStateFlags) : Dropdown :=
  { dd with state := flags }

/-- The call `gtk_widget_set_state_flags(label, flags, TRUE)`. -/
def Label.set_state_flags (l : Label) (flags : GtkStateFlags) : Label :=
  { l with state := flags }

/-- Conversion of the `uint32_t` loop counter to the `gint` parameter of
`gtk_combo_box_set_active`. -/
def uint32_to_gint (index : Nat) : Int :=
  if index % 2 ^ 32 < 2 ^ 31 then ((index % 2 ^ 32 : Nat) : Int)
  else ((index % 2 ^ 32 : Nat) : Int) - 2 ^ 32

/-! ## Hover handlers -/

/-- The handler `_lib_viewswitcher_enter_notify_callback`; `name` is the result of
`dt_view_manager_name(darktable.view_manager)`. -/
def _lib_viewswitcher_enter_notify_callback (name : String) (l : Label) : Label :=
  if l.view_label ≠ name then l.set_state_flags .GTK_STATE_FLAG_PRELIGHT else l

/-- The handler `_lib_viewswitcher_leave_notify_callback`. -/
def _lib_viewswitcher_leave_notify_callback (name : String) (l : Label) : Label :=
  if l.view_label ≠ name then l.set_state_flags .GTK_STATE_FLAG_NORMAL else l

/-! ## The view-changed handler -/

/-- The loop over `d->labels` of `_lib_viewswitcher_view_changed_callback`: the
labels after the pass and the final value of `found`. -/
def labels_loop (name : String) : List Label → Bool → List Label × Bool
  | [], found => ([], found)
  | label :: iter, found =>
    if label.view_label = name then
      ((label.set_state_flags .GTK_STATE_FLAG_SELECTED) :: (labels_loop name iter true).1,
        (labels_loop name iter true).2)
    else
      ((label.set_state_flags .GTK_STATE_FLAG_NORMAL) :: (labels_loop name iter found).1,
        (labels_loop name iter found).2)

/-- The `do ... while` scan over the rows of the list store: `rows` are the rows
from the iterator on, `index` the `uint32_t` counter. -/
def rows_loop (ids : ViewIds) (b : Build) (name : String) (dd : Dropdown) :
    List Row → Nat → Dropdown × List dt_ctl_gui_mode_t
  | [], _ => (dd, [])
  | r :: rest, index =>
    if r.TEXT_COLUMN = name then
      ((gtk_combo_box_set_active ids b dd (uint32_to_gint index)).1.set_state_flags
          .GTK_STATE_FLAG_SELECTED,
        (gtk_combo_box_set_active ids b dd (uint32_to_gint index)).2)
    else rows_loop ids b name dd rest ((index + 1) % 2 ^ 32)

/-- The part of the handler between blocking and unblocking the `changed` handler. -/
def sync_dropdown (ids : ViewIds) (b : Build) (name : String) (found : Bool) (dd : Dropdown) :
    Dropdown × List dt_ctl_gui_mode_t :=
  if found then
    ((gtk_combo_box_set_active ids b dd 0).1.set_state_flags .GTK_STATE_FLAG_NORMAL,
      (gtk_combo_box_set_active ids b dd 0).2)
  else rows_loop ids b name dd dd.model 0

/-- The handler `_lib_viewswitcher_view_changed_callback`; `name` is the result of
`dt_view_manager_name(darktable.view_manager)`. The result is the panel data
afterwards and the mode-switch requests issued while it ran. With a NULL
`d->dropdown` every toolkit call on it fails its argument check and does
nothing. -/
def _lib_viewswitcher_view_changed_callback (ids : ViewIds) (b : Build) (name : String)
    (d : dt_lib_viewswitcher_t) : dt_lib_viewswitcher_t × List dt_ctl_gui_mode_t :=
  match d.dropdown with
  | none => ({ labels := (labels_loop name d.labels false).1, dropdown := none }, [])
  | some dd =>
    ({ labels := (labels_loop name d.labels false).1,
       dropdown := some (g_signal_handlers_unblock_by_func
         (sync_dropdown ids b name (labels_loop name d.labels false).2
           (g_signal_handlers_block_by_func dd)).1) },
     (sync_dropdown ids b name (labels_loop name d.labels false).2
           (g_signal_handlers_block_by_func dd)).2)

/-! ## Construction -/

/-- Modelled from the spec: the gettext call `_("other")`, whose header is not
part of this file; the placeholder row is labelled "other". -/
def gettext_other : String := "other"

/-- The label created by `_lib_viewswitcher_create_label`: tagged with the
view's display name, state `GTK_STATE_FLAG_NORMAL`. -/
def _lib_viewswitcher_create_label (v : dt_view_t) : Label :=
  { view_label := v.name, state := .GTK_STATE_FLAG_NORMAL }

/-- The combo box right after its creation in `gui_init`: the placeholder row
appended, nothing active, handler connected and not blocked. -/
def new_dropdown : Dropdown :=
  { model := [{ TEXT_COLUMN := gettext_other, VIEW_COLUMN := 0, SENSITIVE_COLUMN := false }],
    active := none, state := .GTK_STATE_FLAG_NORMAL, block_count := 0 }

/-- The test `!g_strcmp0(v->module_name, "lighttable") || !g_strcmp0(v->module_name, "darkroom")`. -/
def is_top_level (v : dt_view_t) : Bool :=
  v.module_name == "lighttable" || v.module_name == "darkroom"

/-- The body of the `for` loop of `gui_init` for index `k` and view `v = view[k]`. -/
def gui_init_body (num_views : Int) (k : Int) (v : dt_view_t) (self : dt_lib_module_t) :
    dt_lib_module_t :=
  if v.module then
    if is_top_level v then
      { data := { self.data with labels := self.data.labels ++ [_lib_viewswitcher_create_label v] },
        widget := self.widget ++ [BoxChild.label v.name]
          ++ (if k < num_views - 1 then [BoxChild.divider] else []) }
    else
      match self.data.dropdown with
      | none =>
        { data := { self.data with dropdown := some { new_dropdown with
              model := new_dropdown.model ++
                [{ TEXT_COLUMN := v.name, VIEW_COLUMN := v.view, SENSITIVE_COLUMN := true }] } },
          widget := self.widget ++ [BoxChild.dropdown] }
      | some dd =>
        { self with data := { self.data with dropdown := some { dd with
              model := dd.model ++
                [{ TEXT_COLUMN := v.name, VIEW_COLUMN := v.view, SENSITIVE_COLUMN := true }] } } }
  else self

/-- The loop `for(int k = 0; k < num_views; k++)` of `gui_init`, from index `k`
on; `views` are the entries `view[k], view[k+1], ...`. -/
def gui_init_loop (num_views : Int) : List dt_view_t → Int → dt_lib_module_t → dt_lib_module_t
  | [], _, self => self
  | v :: rest, k, self => gui_init_loop num_views rest (k + 1) (gui_init_body num_views k v self)

/-- The function `gui_init` over the registry's view array: zeroed panel data, an
empty box, then the loop. -/
def gui_init (views : List dt_view_t) : dt_lib_module_t :=
  gui_init_loop (views.length : Int) views 0
    { data := { labels := [], dropdown := none }, widget := [] }

/-! ## Definitions that follow the wording of the specification -/

/-- The abstract view kinds named by the dispatch table. -/
inductive ViewKind where
  | lighttable | darkroom | tethering | map | slideshow | print
  deriving DecidableEq

/-- The view id of a kind. -/
def ViewKind.id (ids : ViewIds) : ViewKind → Int
  | .lighttable => ids.DT_VIEW_LIGHTTABLE
  | .darkroom => ids.DT_VIEW_DARKROOM
  | .tethering => ids.DT_VIEW_TETHERING
  | .map => ids.DT_VIEW_MAP
  | .slideshow => ids.DT_VIEW_SLIDESHOW
  | .print => ids.DT_VIEW_PRINT

/-- Whether a kind is compiled in: tethering, map and print depend on a build
switch, the other kinds are always present. -/
def ViewKind.enabled (b : Build) : ViewKind → Bool
  | .tethering => b.HAVE_GPHOTO2
  | .map => b.HAVE_MAP
  | .print => b.HAVE_PRINT
  | _ => true

/-- The fixed mode a kind is mapped to. -/
def ViewKind.mode : ViewKind → dt_ctl_gui_mode_t
  | .lighttable => .DT_LIBRARY
  | .darkroom => .DT_DEVELOP
  | .tethering => .DT_CAPTURE
  | .map => .DT_MAP
  | .slideshow => .DT_SLIDESHOW
  | .print => .DT_PRINT

/-- The state a label is given by the pass for active-view name `name`. -/
def label_after (name : String) (l : Label) : Label :=
  { view_label := l.view_label,
    state := if l.view_label = name then .GTK_STATE_FLAG_SELECTED else .GTK_STATE_FLAG_NORMAL }

/-- `i` is the smallest index of a row of `rows` whose text is `name`. -/
def first_match (name : String) (rows : List Row) (i : Nat) : Prop :=
  (∃ r, rows[i]? = some r ∧ r.TEXT_COLUMN = name) ∧
  ∀ j, j < i → ∀ r, rows[j]? = some r → r.TEXT_COLUMN ≠ name


/-- The views that go into the dropdown: loaded, and named neither "lighttable"
nor "darkroom", in registry order. -/
def other_views (views : List dt_view_t) : List dt_view_t :=
  views.filter (fun v => v.module && v.module_name != "lighttable" && v.module_name != "darkroom")

/-- The views shown as labels: loaded and named "lighttable" or "darkroom", in
registry order. -/
def primary_views (views : List dt_view_t) : List dt_view_t :=
  views.filter (fun v => v.module && (v.module_name == "lighttable" || v.module_name == "darkroom"))

/-- The dropdown row of a non-primary view. -/
def row_of_view (v : dt_view_t) : Row :=
  { TEXT_COLUMN := v.name, VIEW_COLUMN := v.view, SENSITIVE_COLUMN := true }

/-- The children the box receives for the view `v` at index `k` of the registry
list `views`: nothing for a view that is not loaded; for a primary view its label,
followed by a divider when `k < num_views - 1`; for any other view the dropdown
when it is the first such view, and nothing otherwise. -/
def box_children_of (views : List dt_view_t) (k : Nat) (v : dt_view_t) : List BoxChild :=
  if v.module = true then
    if v.module_name = "lighttable" ∨ v.module_name = "darkroom" then
      if (k : Int) < (views.length : Int) - 1 then [.label v.name, .divider] else [.label v.name]
    else if other_views (views.take k) = [] then [.dropdown] else []
  else []

/-- Whether the dropdown, when there is one, is in state
`GTK_STATE_FLAG_SELECTED`, as a count. -/
def dropdown_selected : Option Dropdown → Nat
  | some dd => if dd.state = .GTK_STATE_FLAG_SELECTED then 1 else 0
  | none => 0

/-- The number of elements among the primary labels and the dropdown that are in
state `GTK_STATE_FLAG_SELECTED`. -/
def selected_count (d : dt_lib_viewswitcher_t) : Nat :=
  d.labels.countP (fun l => l.state = .GTK_STATE_FLAG_SELECTED) + dropdown_selected d.dropdown

/-- The selected element corresponds to the active view `name`: a selected label
tagged `name`, or the selected dropdown whose active row has text `name`. -/
def shows_active (d : dt_lib_viewswitcher_t) (name : String) : Prop :=
  (∃ l ∈ d.labels, l.view_label = name ∧ l.state = .GTK_STATE_FLAG_SELECTED) ∨
  (∃ dd i r, d.dropdown = some dd ∧ dd.state = .GTK_STATE_FLAG_SELECTED ∧
    dd.active = some i ∧ dd.model[i]? = some r ∧ r.TEXT_COLUMN = name)

/-- The panel data after a sequence of view-changed notifications, given by the
active-view name at each of them. -/
def notify (ids : ViewIds) (b : Build) (d : dt_lib_viewswitcher_t) (names : List String) :
    dt_lib_viewswitcher_t :=
  names.foldl (fun d1 name => (_lib_viewswitcher_view_changed_callback ids b name d1).1) d

/-! ### Concrete inputs -/

/-- The usual values of the `DT_VIEW_*` flags. -/
def example_ids : ViewIds := ⟨1, 2, 4, 8, 16, 32⟩

/-- A build with every optional view. -/
def full_build : Build := ⟨true, true, true⟩

/-- A loaded lighttable view. -/
def lighttable_view : dt_view_t := ⟨true, "lighttable", "lighttable", 1⟩

/-- A loaded darkroom view. -/
def darkroom_view : dt_view_t := ⟨true, "darkroom", "darkroom", 2⟩

/-- A loaded map view. -/
def map_view : dt_view_t := ⟨true, "map", "map", 8⟩

/-- A loaded print view. -/
def print_view : dt_view_t := ⟨true, "print", "print", 32⟩

/-! ## Lemmas about the loops and the toolkit calls -/

/-- The labels after the pass. -/
theorem labels_loop_fst (name : String) (ls : List Label) (found : Bool) :
    (labels_loop name ls found).1 = ls.map (label_after name) := by
  induction ls generalizing found with
  | nil => rfl
  | cons l rest ih =>
    by_cases h : l.view_label = name
    · simp [labels_loop, h, ih, label_after, Label.set_state_flags]
    · simp [labels_loop, h, ih, label_after, Label.set_state_flags]

/-- The flag `found` after the pass. -/
theorem labels_loop_snd (name : String) (ls : List Label) (found : Bool) :
    (labels_loop name ls found).2 = true ↔
      found = true ∨ ∃ l ∈ ls, l.view_label = name := by
  induction ls generalizing found with
  | nil => simp [labels_loop]
  | cons l rest ih =>
    by_cases h : l.view_label = name
    · simp [labels_loop, h, ih]
    · simp [labels_loop, h, ih]

theorem labels_loop_found (name : String) (ls : List Label)
    (h : ∃ l ∈ ls, l.view_label = name) : (labels_loop name ls false).2 = true :=
  (labels_loop_snd name ls false).2 (Or.inr h)

theorem labels_loop_not_found (name : String) (ls : List Label)
    (h : ∀ l ∈ ls, l.view_label ≠ name) : (labels_loop name ls false).2 = false := by
  cases hf : (labels_loop name ls false).2 with
  | false => rfl
  | true =>
    rcases (labels_loop_snd name ls false).1 hf with h1 | ⟨l, hl, hn⟩
    · cases h1
    · exact absurd hn (h l hl)

/-- While the handler is blocked, setting the active row issues no request. -/
theorem set_active_blocked (ids : ViewIds) (b : Build) (dd : Dropdown) (index_ : Int)
    (hb : 0 < dd.block_count) :
    (gtk_combo_box_set_active ids b dd index_).2 = [] := by
  have hne : dd.block_count ≠ 0 := Nat.pos_iff_ne_zero.mp hb
  unfold gtk_combo_box_set_active
  split_ifs <;> simp [emit_changed, hne]

theorem set_active_rest (ids : ViewIds) (b : Build) (dd : Dropdown) (index_ : Int) :
    (gtk_combo_box_set_active ids b dd index_).1.model = dd.model ∧
    (gtk_combo_box_set_active ids b dd index_).1.state = dd.state ∧
    (gtk_combo_box_set_active ids b dd index_).1.block_count = dd.block_count := by
  unfold gtk_combo_box_set_active
  split_ifs <;> simp

theorem set_active_valid (ids : ViewIds) (b : Build) (dd : Dropdown) (i : Nat)
    (hi : i < dd.model.length) :
    (gtk_combo_box_set_active ids b dd (i : Int)).1.active = some i := by
  unfold gtk_combo_box_set_active
  have h1 : ¬ ((i : Int) < -1) := by omega
  have h2 : ¬ ((i : Int) = -1) := by omega
  rw [if_neg h1, if_neg h2]
  by_cases h3 : dd.active = some (i : Int).toNat
  · rw [if_pos h3]; simpa using h3
  · rw [if_neg h3]; simp [hi]

theorem uint32_to_gint_small (i : Nat) (hi : i < 2 ^ 31) : uint32_to_gint i = (i : Int) := by
  unfold uint32_to_gint
  have h1 : i % 2 ^ 32 = i := Nat.mod_eq_of_lt (by omega)
  rw [h1, if_pos hi]

/-- A scan without a matching row changes nothing. -/
theorem rows_loop_no_match (ids : ViewIds) (b : Build) (name : String) (dd : Dropdown)
    (rows : List Row) (index : Nat) (h : ∀ r ∈ rows, r.TEXT_COLUMN ≠ name) :
    rows_loop ids b name dd rows index = (dd, []) := by
  induction rows generalizing index with
  | nil => rfl
  | cons r rest ih =>
    have hr : r.TEXT_COLUMN ≠ name := h r (List.mem_cons_self _ _)
    rw [rows_loop, if_neg hr]
    exact ih _ (fun r' hr' => h r' (List.mem_cons_of_mem _ hr'))

/-- The scan stops at the first row whose text is the name and activates it. -/
theorem rows_loop_match (ids : ViewIds) (b : Build) (name : String) (dd : Dropdown)
    (rows : List Row) (index : Nat) (hlen : index + rows.length ≤ 2 ^ 31)
    (h : ∃ r ∈ rows, r.TEXT_COLUMN = name) :
    ∃ i, i < rows.length ∧ first_match name rows i ∧
      rows_loop ids b name dd rows index =
        ((gtk_combo_box_set_active ids b dd ((index + i : Nat) : Int)).1.set_state_flags
            .GTK_STATE_FLAG_SELECTED,
          (gtk_combo_box_set_active ids b dd ((index + i : Nat) : Int)).2) := by
  induction rows generalizing index with
  | nil => simp at h
  | cons r rest ih =>
    simp only [List.length_cons] at hlen
    by_cases hr : r.TEXT_COLUMN = name
    · refine ⟨0, by simp, ⟨⟨r, by simp, hr⟩, fun j hj => absurd hj (Nat.not_lt_zero j)⟩, ?_⟩
      rw [rows_loop, if_pos hr, uint32_to_gint_small index (by omega)]
      rfl
    · have h' : ∃ r ∈ rest, r.TEXT_COLUMN = name := by
        obtain ⟨r', hr', hn⟩ := h
        rcases List.mem_cons.mp hr' with rfl | hmem
        · exact absurd hn hr
        · exact ⟨r', hmem, hn⟩
      have hmod : (index + 1) % 2 ^ 32 = index + 1 := Nat.mod_eq_of_lt (by omega)
      obtain ⟨i, hi, ⟨⟨ri, hri, hrn⟩, hmin⟩, heq⟩ := ih (index + 1) (by omega) h'
      refine ⟨i + 1, by simp [hi], ⟨⟨ri, by simpa using hri, hrn⟩, ?_⟩, ?_⟩
      · intro j hj rj hrj
        cases j with
        | zero =>
          simp at hrj
          subst hrj
          exact hr
        | succ j =>
          exact hmin j (by omega) rj (by simpa using hrj)
      · rw [rows_loop, if_neg hr, hmod, heq]
        have : index + 1 + i = index + (i + 1) := by omega
        rw [this]

theorem callback_labels (ids : ViewIds) (b : Build) (name : String)
    (d : dt_lib_viewswitcher_t) :
    (_lib_viewswitcher_view_changed_callback ids b name d).1.labels =
      d.labels.map (label_after name) := by
  unfold _lib_viewswitcher_view_changed_callback
  cases d.dropdown <;> simp [labels_loop_fst]

theorem label_after_no_match (name : String) (ls : List Label)
    (h : ∀ l ∈ ls, l.view_label ≠ name) :
    ls.map (label_after name) = ls.map (fun l => l.set_state_flags .GTK_STATE_FLAG_NORMAL) := by
  apply List.map_congr_left
  intro l hl
  simp [label_after, h l hl, Label.set_state_flags]

theorem callback_found (ids : ViewIds) (b : Build) (name : String)
    (d : dt_lib_viewswitcher_t) (dd : Dropdown) (hdd : d.dropdown = some dd)
    (hmatch : ∃ l ∈ d.labels, l.view_label = name) :
    ∃ dd1, (_lib_viewswitcher_view_changed_callback ids b name d).1.dropdown = some dd1 ∧
      (dd.model ≠ [] → dd1.active = some 0) ∧ dd1.state = .GTK_STATE_FLAG_NORMAL ∧
      dd1.model = dd.model := by
  have hfound := labels_loop_found name d.labels hmatch
  have hrest := set_active_rest ids b (g_signal_handlers_block_by_func dd) ((0 : Nat) : Int)
  simp only [Nat.cast_zero] at hrest
  unfold _lib_viewswitcher_view_changed_callback
  rw [hdd]
  simp only [hfound, sync_dropdown, if_true]
  refine ⟨_, rfl, ?_, ?_, ?_⟩
  · intro hrows
    have hpos : (0 : Nat) < (g_signal_handlers_block_by_func dd).model.length := by
      cases hm : dd.model with
      | nil => exact absurd hm hrows
      | cons r rest => simp [g_signal_handlers_block_by_func, hm]
    have hact := set_active_valid ids b (g_signal_handlers_block_by_func dd) 0 hpos
    simp only [Nat.cast_zero] at hact
    simpa [g_signal_handlers_unblock_by_func, Dropdown.set_state_flags] using hact
  · simp [g_signal_handlers_unblock_by_func, Dropdown.set_state_flags]
  · simpa [g_signal_handlers_unblock_by_func, Dropdown.set_state_flags,
      g_signal_handlers_block_by_func] using hrest.1

theorem callback_scan (ids : ViewIds) (b : Build) (name : String)
    (d : dt_lib_viewswitcher_t) (dd : Dropdown) (hdd : d.dropdown = some dd)
    (hlen : dd.model.length ≤ 2 ^ 31)
    (hlabels : ∀ l ∈ d.labels, l.view_label ≠ name)
    (hrow : ∃ r ∈ dd.model, r.TEXT_COLUMN = name) :
    ∃ dd1 i, (_lib_viewswitcher_view_changed_callback ids b name d).1.dropdown = some dd1 ∧
      dd1.active = some i ∧ first_match name dd.model i ∧
      dd1.state = .GTK_STATE_FLAG_SELECTED ∧ dd1.model = dd.model := by
  have hnot := labels_loop_not_found name d.labels hlabels
  obtain ⟨i, hi, hfirst, heq⟩ := rows_loop_match ids b name (g_signal_handlers_block_by_func dd)
    dd.model 0 (by simpa using hlen) hrow
  have hact := set_active_valid ids b (g_signal_handlers_block_by_func dd) i
    (by simpa [g_signal_handlers_block_by_func] using hi)
  have hrest := set_active_rest ids b (g_signal_handlers_block_by_func dd) (i : Int)
  simp only [Nat.zero_add] at heq
  unfold _lib_viewswitcher_view_changed_callback
  rw [hdd]
  have hm : (g_signal_handlers_block_by_func dd).model = dd.model := rfl
  simp only [hnot, sync_dropdown, hm, heq, Bool.false_eq_true, if_false]
  refine ⟨_, i, rfl, ?_, hfirst, ?_, ?_⟩
  · simpa [g_signal_handlers_unblock_by_func, Dropdown.set_state_flags] using hact
  · simp [g_signal_handlers_unblock_by_func, Dropdown.set_state_flags]
  · simpa [g_signal_handlers_unblock_by_func, Dropdown.set_state_flags,
      g_signal_handlers_block_by_func] using hrest.1

theorem rows_loop_blocked (ids : ViewIds) (b : Build) (name : String) (dd : Dropdown)
    (rows : List Row) (index : Nat) (hb : 0 < dd.block_count) :
    (rows_loop ids b name dd rows index).2 = [] ∧
    (rows_loop ids b name dd rows index).1.block_count = dd.block_count := by
  induction rows generalizing index with
  | nil => exact ⟨rfl, rfl⟩
  | cons r rest ih =>
    by_cases hr : r.TEXT_COLUMN = name
    · rw [rows_loop, if_pos hr]
      exact ⟨set_active_blocked ids b dd _ hb,
        by simpa [Dropdown.set_state_flags] using (set_active_rest ids b dd _).2.2⟩
    · rw [rows_loop, if_neg hr]
      exact ih _

theorem sync_dropdown_blocked (ids : ViewIds) (b : Build) (name : String) (found : Bool)
    (dd : Dropdown) (hb : 0 < dd.block_count) :
    (sync_dropdown ids b name found dd).2 = [] ∧
    (sync_dropdown ids b name found dd).1.block_count = dd.block_count := by
  unfold sync_dropdown
  cases found with
  | true =>
    exact ⟨by simpa using set_active_blocked ids b dd 0 hb,
      by simpa [Dropdown.set_state_flags] using (set_active_rest ids b dd 0).2.2⟩
  | false => simpa using rows_loop_blocked ids b name dd dd.model 0 hb

/-- Setting another valid row active while the handler is not blocked does run
`_dropdown_changed`: the row's view id is handed to `_switch_view`. -/
theorem set_active_unblocked (ids : ViewIds) (b : Build) (dd : Dropdown) (i : Nat) (r : Row)
    (hb : dd.block_count = 0) (hact : dd.active ≠ some i) (hr : dd.model[i]? = some r) :
    (gtk_combo_box_set_active ids b dd (i : Int)).2 = _switch_view ids b r.VIEW_COLUMN := by
  have hi : i < dd.model.length := by
    rcases Nat.lt_or_ge i dd.model.length with h | h
    · exact h
    · rw [List.getElem?_eq_none h] at hr; cases hr
  unfold gtk_combo_box_set_active
  have h1 : ¬ ((i : Int) < -1) := by omega
  have h2 : ¬ ((i : Int) = -1) := by omega
  have h3 : ¬ (dd.active = some (i : Int).toNat) := by simpa using hact
  rw [if_neg h1, if_neg h2, if_neg h3]
  simp [emit_changed, hb, _dropdown_changed, hi, hr]

theorem callback_no_match (ids : ViewIds) (b : Build) (name : String)
    (d : dt_lib_viewswitcher_t) (hlabels : ∀ l ∈ d.labels, l.view_label ≠ name)
    (hrows : ∀ dd, d.dropdown = some dd → ∀ r ∈ dd.model, r.TEXT_COLUMN ≠ name) :
    _lib_viewswitcher_view_changed_callback ids b name d =
      ({ labels := d.labels.map (fun l => l.set_state_flags .GTK_STATE_FLAG_NORMAL),
         dropdown := d.dropdown }, []) := by
  have hnot := labels_loop_not_found name d.labels hlabels
  have hl := label_after_no_match name d.labels hlabels
  unfold _lib_viewswitcher_view_changed_callback
  cases hdd : d.dropdown with
  | none => simp [labels_loop_fst, hl]
  | some dd =>
    have hscan := rows_loop_no_match ids b name (g_signal_handlers_block_by_func dd)
      dd.model 0 (hrows dd hdd)
    have hm : (g_signal_handlers_block_by_func dd).model = dd.model := rfl
    simp only [labels_loop_fst, hl, hnot, sync_dropdown, hm, hscan, Bool.false_eq_true,
      if_false]
    simp [g_signal_handlers_unblock_by_func, g_signal_handlers_block_by_func]

theorem rows_loop_model (ids : ViewIds) (b : Build) (name : String) (dd : Dropdown)
    (rows : List Row) (index : Nat) :
    (rows_loop ids b name dd rows index).1.model = dd.model := by
  induction rows generalizing index with
  | nil => rfl
  | cons r rest ih =>
    by_cases hr : r.TEXT_COLUMN = name
    · rw [rows_loop, if_pos hr]
      simpa [Dropdown.set_state_flags] using (set_active_rest ids b dd _).1
    · rw [rows_loop, if_neg hr]
      exact ih _

theorem callback_model (ids : ViewIds) (b : Build) (name : String)
    (d : dt_lib_viewswitcher_t) :
    (_lib_viewswitcher_view_changed_callback ids b name d).1.dropdown.map (fun dd => dd.model) =
      d.dropdown.map (fun dd => dd.model) := by
  unfold _lib_viewswitcher_view_changed_callback
  cases hdd : d.dropdown with
  | none => rfl
  | some dd =>
    simp only [Option.map_some']
    congr 1
    show (sync_dropdown ids b name (labels_loop name d.labels false).2
      (g_signal_handlers_block_by_func dd)).1.model = dd.model
    unfold sync_dropdown
    split_ifs
    · exact (set_active_rest ids b (g_signal_handlers_block_by_func dd) 0).1
    · exact rows_loop_model ids b name _ _ _

theorem is_top_level_iff (v : dt_view_t) :
    is_top_level v = true ↔ (v.module_name = "lighttable" ∨ v.module_name = "darkroom") := by
  simp [is_top_level]

theorem other_views_cons (v : dt_view_t) (rest : List dt_view_t) :
    other_views (v :: rest) =
      if v.module = true ∧ is_top_level v = false then v :: other_views rest
      else other_views rest := by
  unfold other_views
  rw [List.filter_cons]
  by_cases hm : v.module = true <;> by_cases h1 : v.module_name = "lighttable" <;>
    by_cases h2 : v.module_name = "darkroom" <;> simp [hm, h1, h2, is_top_level]

theorem primary_views_cons (v : dt_view_t) (rest : List dt_view_t) :
    primary_views (v :: rest) =
      if v.module = true ∧ is_top_level v = true then v :: primary_views rest
      else primary_views rest := by
  unfold primary_views
  rw [List.filter_cons]
  by_cases hm : v.module = true <;> by_cases h1 : v.module_name = "lighttable" <;>
    by_cases h2 : v.module_name = "darkroom" <;> simp [hm, h1, h2, is_top_level]

/-- The dropdown after the loop, from the dropdown before it. -/
theorem gui_init_loop_dropdown (num_views : Int) (views : List dt_view_t) (k : Int)
    (self : dt_lib_module_t) :
    (gui_init_loop num_views views k self).data.dropdown =
      if other_views views = [] then self.data.dropdown
      else some { (self.data.dropdown.getD new_dropdown) with
        model := (self.data.dropdown.getD new_dropdown).model ++
          (other_views views).map row_of_view } := by
  induction views generalizing k self with
  | nil => simp [gui_init_loop, other_views]
  | cons v rest ih =>
    rw [gui_init_loop, ih, other_views_cons]
    by_cases hm : v.module = true
    · by_cases ht : is_top_level v = true
      · simp [gui_init_body, hm, ht]
      · have ht' : is_top_level v = false := by simpa using ht
        cases hdd : self.data.dropdown with
        | none =>
          by_cases hr : other_views rest = []
          · simp [gui_init_body, hm, ht', hdd, hr, row_of_view]
          · simp [gui_init_body, hm, ht', hdd, hr, row_of_view]
        | some dd =>
          by_cases hr : other_views rest = []
          · simp [gui_init_body, hm, ht', hdd, hr, row_of_view]
          · simp [gui_init_body, hm, ht', hdd, hr, row_of_view]
    · simp [gui_init_body, hm]

/-- The labels after the loop, from the labels before it. -/
theorem gui_init_loop_labels (num_views : Int) (views : List dt_view_t) (k : Int)
    (self : dt_lib_module_t) :
    (gui_init_loop num_views views k self).data.labels =
      self.data.labels ++ (primary_views views).map _lib_viewswitcher_create_label := by
  induction views generalizing k self with
  | nil => simp [gui_init_loop, primary_views]
  | cons v rest ih =>
    rw [gui_init_loop, ih, primary_views_cons]
    by_cases hm : v.module = true
    · by_cases ht : is_top_level v = true
      · simp [gui_init_body, hm, ht]
      · have ht' : is_top_level v = false := by simpa using ht
        cases hdd : self.data.dropdown <;> simp [gui_init_body, hm, ht', hdd]
    · simp [gui_init_body, hm]

/-- One iteration of the loop: the children it appends, and whether a dropdown
exists afterwards. -/
theorem gui_init_body_widget (views pre rest : List dt_view_t) (v : dt_view_t)
    (self : dt_lib_module_t) (hv : views = pre ++ v :: rest)
    (hs : self.data.dropdown = none ↔ other_views pre = []) :
    (gui_init_body (views.length : Int) (pre.length : Int) v self).widget =
        self.widget ++ box_children_of views pre.length v ∧
    ((gui_init_body (views.length : Int) (pre.length : Int) v self).data.dropdown = none ↔
        other_views (pre ++ [v]) = []) := by
  have htake : views.take pre.length = pre := by rw [hv]; exact List.take_left _ _
  have hoth : other_views (pre ++ [v]) = other_views pre ++ other_views [v] := by
    unfold other_views; exact List.filter_append _ _
  rw [hoth, other_views_cons]
  by_cases hm : v.module = true
  · by_cases ht : is_top_level v = true
    · have ht2 := (is_top_level_iff v).1 ht
      constructor
      · unfold gui_init_body box_children_of
        simp only [hm, ht, ht2, if_true]
        split_ifs <;> simp
      · simp [gui_init_body, hm, ht, hs, other_views]
    · have ht' : is_top_level v = false := by simpa using ht
      have ht2 : ¬ (v.module_name = "lighttable" ∨ v.module_name = "darkroom") :=
        fun h => ht ((is_top_level_iff v).2 h)
      cases hdd : self.data.dropdown with
      | none =>
        have hp : other_views pre = [] := hs.1 hdd
        constructor
        · unfold gui_init_body box_children_of
          simp [hm, ht', ht2, hdd, htake, hp]
        · simp [gui_init_body, hm, ht', hdd]
      | some dd =>
        have hp : other_views pre ≠ [] := fun h => by
          have := hs.2 h; rw [hdd] at this; cases this
        constructor
        · unfold gui_init_body box_children_of
          simp [hm, ht', ht2, hdd, htake, hp]
        · simp [gui_init_body, hm, ht', hdd]
  · constructor
    · simp [gui_init_body, box_children_of, hm]
    · simp [gui_init_body, hm, hs, other_views]

/-- The children appended to the box by the loop from index `pre.length` on. -/
theorem gui_init_loop_widget (views : List dt_view_t) (rest pre : List dt_view_t)
    (self : dt_lib_module_t) (hv : views = pre ++ rest)
    (hs : self.data.dropdown = none ↔ other_views pre = []) :
    (gui_init_loop (views.length : Int) rest (pre.length : Int) self).widget =
      self.widget ++ (rest.enumFrom pre.length).flatMap
        (fun kv => box_children_of views kv.1 kv.2) := by
  induction rest generalizing pre self with
  | nil => simp [gui_init_loop]
  | cons v rest ih =>
    obtain ⟨hw, hd⟩ := gui_init_body_widget views pre rest v self hv hs
    have hv' : views = (pre ++ [v]) ++ rest := by simp [hv]
    have hk : ((pre.length : Int) + 1) = ((pre ++ [v]).length : Int) := by simp
    rw [gui_init_loop, hk, ih (pre ++ [v]) _ hv' hd, hw]
    simp [List.enumFrom_cons, List.flatMap_cons, List.append_assoc]

theorem gui_init_data_dropdown (views : List dt_view_t) :
    (gui_init views).data.dropdown =
      if other_views views = [] then none
      else some (Dropdown.mk
        (Row.mk "other" 0 false :: (other_views views).map row_of_view)
        none .GTK_STATE_FLAG_NORMAL 0) := by
  unfold gui_init
  rw [gui_init_loop_dropdown]
  by_cases h : other_views views = []
  · simp [h]
  · simp [h, new_dropdown, gettext_other]

theorem gui_init_data_labels (views : List dt_view_t) :
    (gui_init views).data.labels = (primary_views views).map _lib_viewswitcher_create_label := by
  unfold gui_init
  rw [gui_init_loop_labels]
  simp

theorem gui_init_widget (views : List dt_view_t) :
    (gui_init views).widget =
      views.enum.flatMap (fun kv => box_children_of views kv.1 kv.2) := by
  have h := gui_init_loop_widget views views [] ⟨⟨[], none⟩, []⟩ rfl (by simp [other_views])
  simpa [gui_init, List.enum] using h

theorem gui_init_model_length (views : List dt_view_t) (dd : Dropdown)
    (h : (gui_init views).data.dropdown = some dd) : dd.model.length ≤ views.length + 1 := by
  rw [gui_init_data_dropdown] at h
  by_cases ho : other_views views = []
  · simp [ho] at h
  · simp only [ho, if_false, Option.some.injEq] at h
    subst h
    have : (other_views views).length ≤ views.length := List.length_filter_le _ _
    simpa using this

theorem callback_dropdown_none (ids : ViewIds) (b : Build) (name : String)
    (d : dt_lib_viewswitcher_t) (h : d.dropdown = none) :
    (_lib_viewswitcher_view_changed_callback ids b name d).1.dropdown = none := by
  unfold _lib_viewswitcher_view_changed_callback
  rw [h]

theorem callback_tags (ids : ViewIds) (b : Build) (name : String) (d : dt_lib_viewswitcher_t) :
    (_lib_viewswitcher_view_changed_callback ids b name d).1.labels.map (fun l => l.view_label) =
      d.labels.map (fun l => l.view_label) := by
  rw [callback_labels, List.map_map]
  rfl

theorem notify_tags (ids : ViewIds) (b : Build) (names : List String)
    (d : dt_lib_viewswitcher_t) :
    (notify ids b d names).labels.map (fun l => l.view_label) =
      d.labels.map (fun l => l.view_label) := by
  induction names generalizing d with
  | nil => rfl
  | cons n rest ih =>
    show (notify ids b (_lib_viewswitcher_view_changed_callback ids b n d).1 rest).labels.map _ = _
    rw [ih, callback_tags]

theorem notify_model (ids : ViewIds) (b : Build) (names : List String)
    (d : dt_lib_viewswitcher_t) :
    (notify ids b d names).dropdown.map (fun dd => dd.model) =
      d.dropdown.map (fun dd => dd.model) := by
  induction names generalizing d with
  | nil => rfl
  | cons n rest ih =>
    show (notify ids b (_lib_viewswitcher_view_changed_callback ids b n d).1 rest).dropdown.map _ = _
    rw [ih, callback_model]

theorem notify_snoc (ids : ViewIds) (b : Build) (names : List String) (name : String)
    (d : dt_lib_viewswitcher_t) :
    notify ids b d (names ++ [name]) =
      (_lib_viewswitcher_view_changed_callback ids b name (notify ids b d names)).1 := by
  simp [notify, List.foldl_append]

theorem countP_label_after (name : String) (ls : List Label) :
    (ls.map (label_after name)).countP (fun l => l.state = .GTK_STATE_FLAG_SELECTED) =
      (ls.map (fun l => l.view_label)).count name := by
  induction ls with
  | nil => rfl
  | cons l rest ih =>
    simp only [List.map_cons, List.countP_cons, List.count_cons, ih]
    by_cases h : l.view_label = name
    · simp [label_after, h]
    · simp [label_after, h]

/-- One notification with a matched name, on a panel with distinct label tags,
leaves exactly one element selected, the one for the name. -/
theorem callback_exactly_one (ids : ViewIds) (b : Build) (name : String)
    (d : dt_lib_viewswitcher_t)
    (hnodup : (d.labels.map (fun l => l.view_label)).Nodup)
    (hlen : ∀ dd, d.dropdown = some dd → dd.model.length ≤ 2 ^ 31)
    (hname : name ∈ d.labels.map (fun l => l.view_label) ∨
      ∃ dd, d.dropdown = some dd ∧ name ∈ dd.model.map (fun r => r.TEXT_COLUMN)) :
    selected_count (_lib_viewswitcher_view_changed_callback ids b name d).1 = 1 ∧
    shows_active (_lib_viewswitcher_view_changed_callback ids b name d).1 name := by
  by_cases hm : ∃ l ∈ d.labels, l.view_label = name
  · have hmem : name ∈ d.labels.map (fun l => l.view_label) := by
      obtain ⟨l, hl, hn⟩ := hm
      exact List.mem_map.2 ⟨l, hl, hn⟩
    have hcount := List.count_eq_one_of_mem hnodup hmem
    have hdrop : dropdown_selected
        (_lib_viewswitcher_view_changed_callback ids b name d).1.dropdown = 0 := by
      cases hdd : d.dropdown with
      | none =>
        rw [callback_dropdown_none ids b name d hdd]
        rfl
      | some dd =>
        obtain ⟨dd1, h1, _, hst, _⟩ := callback_found ids b name d dd hdd hm
        rw [h1]
        simp [dropdown_selected, hst]
    constructor
    · unfold selected_count
      rw [hdrop, callback_labels, countP_label_after, hcount]
    · left
      obtain ⟨l, hl, hn⟩ := hm
      refine ⟨label_after name l, ?_, ?_, ?_⟩
      · rw [callback_labels]
        exact List.mem_map.2 ⟨l, hl, rfl⟩
      · exact hn
      · simp [label_after, hn]
  · have hlabels : ∀ l ∈ d.labels, l.view_label ≠ name := fun l hl hn => hm ⟨l, hl, hn⟩
    have hnot : name ∉ d.labels.map (fun l => l.view_label) := by
      intro h
      obtain ⟨l, hl, hn⟩ := List.mem_map.1 h
      exact hm ⟨l, hl, hn⟩
    rcases hname with h | ⟨dd, hdd, hrow⟩
    · exact absurd h hnot
    · have hrow' : ∃ r ∈ dd.model, r.TEXT_COLUMN = name := by
        obtain ⟨r, hr, hn⟩ := List.mem_map.1 hrow
        exact ⟨r, hr, hn⟩
      obtain ⟨dd1, i, h1, hact, ⟨⟨r, hr, hrn⟩, _⟩, hst, hmod⟩ :=
        callback_scan ids b name d dd hdd (hlen dd hdd) hlabels hrow'
      constructor
      · unfold selected_count
        rw [h1, callback_labels, countP_label_after, List.count_eq_zero_of_not_mem hnot]
        simp [dropdown_selected, hst]
      · right
        exact ⟨dd1, i, r, h1, hst, hact, by rw [hmod]; exact hr, hrn⟩

/-! ## The claims -/

/-- Claim C10. With pairwise distinct view ids, for every build: called with the id
of a view kind enabled in the build, `_switch_view` issues exactly one mode-switch
request, for the mode mapped to that kind; called with any integer that is the id
of no enabled kind (the id of a disabled kind included), it issues none. -/
theorem switch_view_dispatch (ids : ViewIds) (hd : ids.distinct) (b : Build) :
    (∀ kind : ViewKind, kind.enabled b = true →
      _switch_view ids b (kind.id ids) = [kind.mode]) ∧
    (∀ which : Int, (∀ kind : ViewKind, kind.enabled b = true → which ≠ kind.id ids) →
      _switch_view ids b which = []) := by
  simp only [ViewIds.distinct, List.nodup_cons, List.mem_cons, List.mem_singleton, not_or,
    List.not_mem_nil, not_false_eq_true, List.nodup_nil, and_true] at hd
  obtain ⟨⟨h12, h13, h14, h15, h16⟩, ⟨h23, h24, h25, h26⟩, ⟨h34, h35, h36⟩, ⟨h45, h46⟩, h56⟩ := hd
  constructor
  · intro kind hk
    cases kind <;> simp only [ViewKind.enabled] at hk <;>
      simp [_switch_view, ViewKind.id, ViewKind.mode, hk, Ne.symm h12, Ne.symm h13, Ne.symm h14,
        Ne.symm h15, Ne.symm h16, Ne.symm h23, Ne.symm h24, Ne.symm h25, Ne.symm h26,
        Ne.symm h34, Ne.symm h35, Ne.symm h36, Ne.symm h45, Ne.symm h46, Ne.symm h56]
  · intro which h
    have h1 := h .lighttable rfl
    have h2 := h .darkroom rfl
    have h3 := h .tethering
    have h4 := h .map
    have h5 := h .slideshow rfl
    have h6 := h .print
    simp only [ViewKind.id, ViewKind.enabled] at h1 h2 h3 h4 h5 h6
    unfold _switch_view
    rw [if_neg h1, if_neg h2, if_neg (fun hh => h3 hh.1 hh.2), if_neg (fun hh => h4 hh.1 hh.2),
      if_neg h5, if_neg (fun hh => h6 hh.1 hh.2)]

/-- The dispatch table at the usual ids in a build with only the map feature: the
map id switches to `DT_MAP`, the tethering id does nothing. -/
theorem switch_view_dispatch_witness :
    _switch_view ⟨1, 2, 4, 8, 16, 32⟩ ⟨false, true, false⟩ 8 = [.DT_MAP] ∧
    _switch_view ⟨1, 2, 4, 8, 16, 32⟩ ⟨false, true, false⟩ 4 = [] :=
  ⟨(switch_view_dispatch ⟨1, 2, 4, 8, 16, 32⟩ (by decide) ⟨false, true, false⟩).1 .map rfl,
   (switch_view_dispatch ⟨1, 2, 4, 8, 16, 32⟩ (by decide) ⟨false, true, false⟩).2 4
     (by intro kind hk; cases kind <;> simp_all [ViewKind.id, ViewKind.enabled])⟩


/-- Claim C5. For the label of a view whose id is the lighttable or the darkroom
id, and every pointer button: button 1 issues exactly one mode-switch request, for
the mode mapped to that view, and the handler returns TRUE; any other button issues
none and the handler returns FALSE. -/
theorem button_press_dispatch (ids : ViewIds)
    (hne : ids.DT_VIEW_LIGHTTABLE ≠ ids.DT_VIEW_DARKROOM) (b : Build) (button : Nat)
    (v : dt_view_t) :
    (v.view = ids.DT_VIEW_LIGHTTABLE →
      _lib_viewswitcher_button_press_callback ids b button v.view =
        if button = 1 then (true, [.DT_LIBRARY]) else (false, [])) ∧
    (v.view = ids.DT_VIEW_DARKROOM →
      _lib_viewswitcher_button_press_callback ids b button v.view =
        if button = 1 then (true, [.DT_DEVELOP]) else (false, [])) := by
  constructor
  · intro h
    simp [_lib_viewswitcher_button_press_callback, _switch_view, h]
  · intro h
    simp [_lib_viewswitcher_button_press_callback, _switch_view, h, Ne.symm hne]

/-- Button 1 and button 3 on the darkroom label. -/
theorem button_press_dispatch_witness :
    _lib_viewswitcher_button_press_callback ⟨1, 2, 4, 8, 16, 32⟩ ⟨true, true, true⟩ 1 2
      = (true, [.DT_DEVELOP]) ∧
    _lib_viewswitcher_button_press_callback ⟨1, 2, 4, 8, 16, 32⟩ ⟨true, true, true⟩ 3 2
      = (false, []) :=
  ⟨(button_press_dispatch ⟨1, 2, 4, 8, 16, 32⟩ (by decide) ⟨true, true, true⟩ 1
      ⟨true, "darkroom", "darkroom", 2⟩).2 rfl,
   (button_press_dispatch ⟨1, 2, 4, 8, 16, 32⟩ (by decide) ⟨true, true, true⟩ 3
      ⟨true, "darkroom", "darkroom", 2⟩).2 rfl⟩

/-- Claim C9. A label whose tag is the active-view name is left unchanged by the
enter and the leave handler; a label whose tag differs is set to
`GTK_STATE_FLAG_PRELIGHT` on enter and to `GTK_STATE_FLAG_NORMAL` on leave. -/
theorem hover_rule (name : String) (l : Label) :
    (l.view_label = name →
      _lib_viewswitcher_enter_notify_callback name l = l ∧
      _lib_viewswitcher_leave_notify_callback name l = l) ∧
    (l.view_label ≠ name →
      _lib_viewswitcher_enter_notify_callback name l =
        { view_label := l.view_label, state := .GTK_STATE_FLAG_PRELIGHT } ∧
      _lib_viewswitcher_leave_notify_callback name l =
        { view_label := l.view_label, state := .GTK_STATE_FLAG_NORMAL }) := by
  constructor
  · intro h
    simp [_lib_viewswitcher_enter_notify_callback, _lib_viewswitcher_leave_notify_callback, h]
  · intro h
    simp [_lib_viewswitcher_enter_notify_callback, _lib_viewswitcher_leave_notify_callback, h,
      Label.set_state_flags]

/-- Hovering the active darkroom label and the inactive lighttable label. -/
theorem hover_rule_witness :
    (_lib_viewswitcher_enter_notify_callback "darkroom"
        ⟨"darkroom", .GTK_STATE_FLAG_SELECTED⟩ = ⟨"darkroom", .GTK_STATE_FLAG_SELECTED⟩ ∧
      _lib_viewswitcher_leave_notify_callback "darkroom"
        ⟨"darkroom", .GTK_STATE_FLAG_SELECTED⟩ = ⟨"darkroom", .GTK_STATE_FLAG_SELECTED⟩) ∧
    (_lib_viewswitcher_enter_notify_callback "darkroom"
        ⟨"lighttable", .GTK_STATE_FLAG_NORMAL⟩ = ⟨"lighttable", .GTK_STATE_FLAG_PRELIGHT⟩ ∧
      _lib_viewswitcher_leave_notify_callback "darkroom"
        ⟨"lighttable", .GTK_STATE_FLAG_PRELIGHT⟩ = ⟨"lighttable", .GTK_STATE_FLAG_NORMAL⟩) :=
  ⟨(hover_rule "darkroom" ⟨"darkroom", .GTK_STATE_FLAG_SELECTED⟩).1 rfl,
   ((hover_rule "darkroom" ⟨"lighttable", .GTK_STATE_FLAG_NORMAL⟩).2 (by decide)).1,
   ((hover_rule "darkroom" ⟨"lighttable", .GTK_STATE_FLAG_PRELIGHT⟩).2 (by decide)).2⟩

/-- Claim C1 fails as stated. The panel built for the registry of just lighttable
and darkroom has no dropdown (`d->dropdown` is NULL); after a notification for the
darkroom, a primary match, the darkroom label is selected and the lighttable label
normal, but there is still no dropdown, so no row 0 is active. -/
theorem view_changed_primary_match_counterexample :
    (gui_init [lighttable_view, darkroom_view]).data =
      dt_lib_viewswitcher_t.mk
        [Label.mk "lighttable" .GTK_STATE_FLAG_NORMAL, Label.mk "darkroom" .GTK_STATE_FLAG_NORMAL]
        none ∧
    (_lib_viewswitcher_view_changed_callback example_ids full_build "darkroom"
      (gui_init [lighttable_view, darkroom_view]).data).1 =
      dt_lib_viewswitcher_t.mk
        [Label.mk "lighttable" .GTK_STATE_FLAG_NORMAL,
         Label.mk "darkroom" .GTK_STATE_FLAG_SELECTED]
        none := by
  constructor <;> decide

/-- Claim C1, amended. For every panel state and every active-view name that is the
tag of some label: after the handler the labels are the same labels in the same
order, each in state `GTK_STATE_FLAG_SELECTED` when its tag is the name and
`GTK_STATE_FLAG_NORMAL` otherwise; a panel without a dropdown still has none; a
panel with a dropdown has it in state `GTK_STATE_FLAG_NORMAL` with its rows
unchanged and, when it holds at least one row (the placeholder), with row 0
active. -/
theorem view_changed_primary_match (ids : ViewIds) (b : Build) (name : String)
    (d : dt_lib_viewswitcher_t) (hmatch : ∃ l ∈ d.labels, l.view_label = name) :
    (_lib_viewswitcher_view_changed_callback ids b name d).1.labels.map (fun l => l.view_label) =
      d.labels.map (fun l => l.view_label) ∧
    (∀ l ∈ (_lib_viewswitcher_view_changed_callback ids b name d).1.labels,
      (l.view_label = name → l.state = .GTK_STATE_FLAG_SELECTED) ∧
      (l.view_label ≠ name → l.state = .GTK_STATE_FLAG_NORMAL)) ∧
    (d.dropdown = none →
      (_lib_viewswitcher_view_changed_callback ids b name d).1.dropdown = none) ∧
    (∀ dd, d.dropdown = some dd →
      ∃ dd1, (_lib_viewswitcher_view_changed_callback ids b name d).1.dropdown = some dd1 ∧
        dd1.state = .GTK_STATE_FLAG_NORMAL ∧ dd1.model = dd.model ∧
        (dd.model ≠ [] → dd1.active = some 0)) := by
  refine ⟨callback_tags ids b name d, ?_, callback_dropdown_none ids b name d, ?_⟩
  · intro l hl
    rw [callback_labels] at hl
    obtain ⟨l0, _, rfl⟩ := List.mem_map.1 hl
    constructor
    · intro h
      simpa [label_after] using h
    · intro h
      have h0 : ¬ l0.view_label = name := by simpa [label_after] using h
      simp [label_after, h0]
  · intro dd hdd
    obtain ⟨dd1, h1, hact, hst, hmod⟩ := callback_found ids b name d dd hdd hmatch
    exact ⟨dd1, h1, hst, hmod, hact⟩

/-- The darkroom becoming active on the panel built for lighttable, darkroom
and map: the dropdown, which holds the placeholder and the map row, gets row 0
active and state normal. -/
theorem view_changed_primary_match_witness :
    ∃ dd1, (_lib_viewswitcher_view_changed_callback example_ids full_build "darkroom"
        (gui_init [lighttable_view, darkroom_view, map_view]).data).1.dropdown = some dd1 ∧
      dd1.state = .GTK_STATE_FLAG_NORMAL ∧
      dd1.model = [Row.mk "other" 0 false, Row.mk "map" 8 true] ∧
      ([Row.mk "other" 0 false, Row.mk "map" 8 true] ≠ [] → dd1.active = some 0) :=
  (view_changed_primary_match example_ids full_build "darkroom"
    (gui_init [lighttable_view, darkroom_view, map_view]).data
    ⟨Label.mk "darkroom" .GTK_STATE_FLAG_NORMAL, by decide, rfl⟩).2.2.2
    (Dropdown.mk [Row.mk "other" 0 false, Row.mk "map" 8 true] none .GTK_STATE_FLAG_NORMAL 0)
    (by decide)

/-- Claim C2. When the active-view name is no label's tag but the text of some row
of the dropdown (whose row count fits the toolkit's `gint`): after the handler the
dropdown's active row is the smallest index whose row text is the name, its state
is `GTK_STATE_FLAG_SELECTED`, its rows are unchanged, and every label is the same
label in state `GTK_STATE_FLAG_NORMAL`. -/
theorem view_changed_dropdown_match (ids : ViewIds) (b : Build) (name : String)
    (d : dt_lib_viewswitcher_t) (dd : Dropdown) (hdd : d.dropdown = some dd)
    (hlen : dd.model.length ≤ 2 ^ 31)
    (hlabels : ∀ l ∈ d.labels, l.view_label ≠ name)
    (hrow : ∃ r ∈ dd.model, r.TEXT_COLUMN = name) :
    (_lib_viewswitcher_view_changed_callback ids b name d).1.labels =
      d.labels.map (fun l => Label.mk l.view_label .GTK_STATE_FLAG_NORMAL) ∧
    ∃ dd1 i, (_lib_viewswitcher_view_changed_callback ids b name d).1.dropdown = some dd1 ∧
      dd1.active = some i ∧
      (∃ r, dd.model[i]? = some r ∧ r.TEXT_COLUMN = name) ∧
      (∀ j, j < i → ∀ r, dd.model[j]? = some r → r.TEXT_COLUMN ≠ name) ∧
      dd1.state = .GTK_STATE_FLAG_SELECTED ∧ dd1.model = dd.model := by
  constructor
  · rw [callback_labels, label_after_no_match name d.labels hlabels]
    rfl
  · obtain ⟨dd1, i, h1, hact, ⟨hex, hmin⟩, hst, hmod⟩ :=
      callback_scan ids b name d dd hdd hlen hlabels hrow
    exact ⟨dd1, i, h1, hact, hex, hmin, hst, hmod⟩

/-- The print view (row index 2) becoming active on the panel built for
lighttable, darkroom, map and print. -/
theorem view_changed_dropdown_match_witness :
    (_lib_viewswitcher_view_changed_callback example_ids full_build "print"
      (gui_init [lighttable_view, darkroom_view, map_view, print_view]).data).1.labels =
      [Label.mk "lighttable" .GTK_STATE_FLAG_NORMAL, Label.mk "darkroom" .GTK_STATE_FLAG_NORMAL] :=
  (view_changed_dropdown_match example_ids full_build "print"
    (gui_init [lighttable_view, darkroom_view, map_view, print_view]).data
    (Dropdown.mk [Row.mk "other" 0 false, Row.mk "map" 8 true, Row.mk "print" 32 true]
      none .GTK_STATE_FLAG_NORMAL 0)
    (by decide) (by norm_num) (by decide) ⟨Row.mk "print" 32 true, by decide, rfl⟩).1

/-- Claim C3 fails as stated. On the panel built for lighttable, darkroom and map, a
notification whose active-view name is the empty string (no view active) leaves no
element selected; on a panel whose two primary views share the display name
"photos", a notification for that name leaves two labels selected. -/
theorem exactly_one_selected_counterexample :
    selected_count (notify example_ids full_build
      (gui_init [lighttable_view, darkroom_view, map_view]).data [""]) = 0 ∧
    selected_count (notify example_ids full_build
      (gui_init [dt_view_t.mk true "lighttable" "photos" 1,
        dt_view_t.mk true "darkroom" "photos" 2]).data ["photos"]) = 2 := by
  constructor <;> decide

/-- Claim C3, amended. For the panel built by `gui_init` from fewer than `2 ^ 31`
views whose primary labels carry pairwise distinct tags, and every sequence of
view-changed notifications: after each notification whose active-view name is the
tag of a label or the text of a dropdown row, exactly one element among the labels
and the dropdown is in state `GTK_STATE_FLAG_SELECTED`, and it corresponds to the
name (the label tagged with it, or the dropdown with its active row's text equal
to it). -/
theorem exactly_one_selected (ids : ViewIds) (b : Build) (views : List dt_view_t)
    (names : List String) (name : String)
    (hnum : views.length < 2 ^ 31)
    (hnodup : ((gui_init views).data.labels.map (fun l => l.view_label)).Nodup)
    (hname : name ∈ (gui_init views).data.labels.map (fun l => l.view_label) ∨
      ∃ dd, (gui_init views).data.dropdown = some dd ∧
        name ∈ dd.model.map (fun r => r.TEXT_COLUMN)) :
    selected_count (notify ids b (gui_init views).data (names ++ [name])) = 1 ∧
    shows_active (notify ids b (gui_init views).data (names ++ [name])) name := by
  have htags := notify_tags ids b names (gui_init views).data
  have hmodel := notify_model ids b names (gui_init views).data
  rw [notify_snoc]
  apply callback_exactly_one
  · rw [htags]; exact hnodup
  · intro dd hdd
    rw [hdd] at hmodel
    cases h0 : (gui_init views).data.dropdown with
    | none => rw [h0] at hmodel; cases hmodel
    | some dd0 =>
      rw [h0] at hmodel
      simp only [Option.map_some', Option.some.injEq] at hmodel
      have := gui_init_model_length views dd0 h0
      rw [hmodel]
      omega
  · rcases hname with h | ⟨dd0, h0, hmem⟩
    · left; rw [htags]; exact h
    · right
      rw [h0] at hmodel
      cases hdd : (notify ids b (gui_init views).data names).dropdown with
      | none => rw [hdd] at hmodel; cases hmodel
      | some dd =>
        rw [hdd] at hmodel
        simp only [Option.map_some', Option.some.injEq] at hmodel
        exact ⟨dd, rfl, by rw [hmodel]; exact hmem⟩

/-- The lighttable becoming active after an unmatched name and the print view,
on the panel built for lighttable, darkroom, map and print. -/
theorem exactly_one_selected_witness :
    selected_count (notify example_ids full_build
      (gui_init [lighttable_view, darkroom_view, map_view, print_view]).data
      (["", "print"] ++ ["lighttable"])) = 1 :=
  (exactly_one_selected example_ids full_build
    [lighttable_view, darkroom_view, map_view, print_view] ["", "print"] "lighttable"
    (by norm_num) (by decide) (Or.inl (by decide))).1

/-- Claim C4 fails as stated. On the panel built for lighttable, darkroom, map and
print, after the print view (row 2) became active, a notification whose name
matches no label and no row leaves row 2 active and the dropdown selected: the
active row is not row 0. -/
theorem no_match_counterexample :
    (_lib_viewswitcher_view_changed_callback example_ids full_build "print"
      (gui_init [lighttable_view, darkroom_view, map_view, print_view]).data).1 =
      dt_lib_viewswitcher_t.mk
        [Label.mk "lighttable" .GTK_STATE_FLAG_NORMAL, Label.mk "darkroom" .GTK_STATE_FLAG_NORMAL]
        (some (Dropdown.mk [Row.mk "other" 0 false, Row.mk "map" 8 true, Row.mk "print" 32 true]
          (some 2) .GTK_STATE_FLAG_SELECTED 0)) ∧
    (_lib_viewswitcher_view_changed_callback example_ids full_build "unknown"
      (dt_lib_viewswitcher_t.mk
        [Label.mk "lighttable" .GTK_STATE_FLAG_NORMAL, Label.mk "darkroom" .GTK_STATE_FLAG_NORMAL]
        (some (Dropdown.mk [Row.mk "other" 0 false, Row.mk "map" 8 true, Row.mk "print" 32 true]
          (some 2) .GTK_STATE_FLAG_SELECTED 0)))).1.dropdown =
      some (Dropdown.mk [Row.mk "other" 0 false, Row.mk "map" 8 true, Row.mk "print" 32 true]
          (some 2) .GTK_STATE_FLAG_SELECTED 0) := by
  constructor <;> decide

/-- Claim C4, amended. When the active-view name is no label's tag and no dropdown
row's text, the handler leaves the dropdown exactly as it was (active row, state,
rows and block count), sets every label to `GTK_STATE_FLAG_NORMAL` and issues no
mode-switch request. -/
theorem view_changed_no_match (ids : ViewIds) (b : Build) (name : String)
    (d : dt_lib_viewswitcher_t) (hlabels : ∀ l ∈ d.labels, l.view_label ≠ name)
    (hrows : ∀ dd, d.dropdown = some dd → ∀ r ∈ dd.model, r.TEXT_COLUMN ≠ name) :
    _lib_viewswitcher_view_changed_callback ids b name d =
      (dt_lib_viewswitcher_t.mk
        (d.labels.map (fun l => Label.mk l.view_label .GTK_STATE_FLAG_NORMAL)) d.dropdown, []) :=
  callback_no_match ids b name d hlabels hrows

/-- An unmatched name on the panel that has the print row active. -/
theorem view_changed_no_match_witness :
    _lib_viewswitcher_view_changed_callback example_ids full_build "unknown"
      (dt_lib_viewswitcher_t.mk [Label.mk "lighttable" .GTK_STATE_FLAG_SELECTED]
        (some (Dropdown.mk [Row.mk "other" 0 false, Row.mk "print" 32 true]
          (some 1) .GTK_STATE_FLAG_SELECTED 0))) =
      (dt_lib_viewswitcher_t.mk [Label.mk "lighttable" .GTK_STATE_FLAG_NORMAL]
        (some (Dropdown.mk [Row.mk "other" 0 false, Row.mk "print" 32 true]
          (some 1) .GTK_STATE_FLAG_SELECTED 0)), []) :=
  view_changed_no_match example_ids full_build "unknown"
    (dt_lib_viewswitcher_t.mk [Label.mk "lighttable" .GTK_STATE_FLAG_SELECTED]
      (some (Dropdown.mk [Row.mk "other" 0 false, Row.mk "print" 32 true]
        (some 1) .GTK_STATE_FLAG_SELECTED 0)))
    (by decide)
    (by
      intro dd hdd
      simp only [Option.some.injEq] at hdd
      subst hdd
      decide)

/-- Claim C6. For every panel state and active-view name, one run of the
view-changed handler issues no mode-switch request, and the block count of the
dropdown's `changed` handler is afterwards what it was before. -/
theorem view_changed_no_reentrant_request (ids : ViewIds) (b : Build) (name : String)
    (d : dt_lib_viewswitcher_t) :
    (_lib_viewswitcher_view_changed_callback ids b name d).2 = [] ∧
    (_lib_viewswitcher_view_changed_callback ids b name d).1.dropdown.map
        (fun dd => dd.block_count) = d.dropdown.map (fun dd => dd.block_count) := by
  unfold _lib_viewswitcher_view_changed_callback
  cases hdd : d.dropdown with
  | none => exact ⟨rfl, rfl⟩
  | some dd =>
    have hb : 0 < (g_signal_handlers_block_by_func dd).block_count := by
      simp [g_signal_handlers_block_by_func]
    obtain ⟨h1, h2⟩ := sync_dropdown_blocked ids b name (labels_loop name d.labels false).2
      (g_signal_handlers_block_by_func dd) hb
    refine ⟨h1, ?_⟩
    simp only [Option.map_some', Option.some.injEq]
    show (sync_dropdown ids b name (labels_loop name d.labels false).2
      (g_signal_handlers_block_by_func dd)).1.block_count - 1 = dd.block_count
    rw [h2]
    simp [g_signal_handlers_block_by_func]

/-- Claim C7. With `N` the number of loaded views named neither "lighttable" nor
"darkroom": `gui_init` leaves `d->dropdown` NULL when `N = 0`; otherwise it creates
a dropdown, nothing active, whose rows are the placeholder ("other", view id 0, not
sensitive) followed by one sensitive row (display name, view id) per such view in
registry order, `N + 1` rows in all. -/
theorem gui_init_dropdown (views : List dt_view_t) :
    (gui_init views).data.dropdown =
      (if (other_views views).length = 0 then none
       else some (Dropdown.mk
        (Row.mk "other" 0 false :: (other_views views).map (fun v => Row.mk v.name v.view true))
        none .GTK_STATE_FLAG_NORMAL 0)) ∧
    (gui_init views).data.dropdown.map (fun dd => dd.model.length) =
      (if (other_views views).length = 0 then none else some ((other_views views).length + 1)) := by
  rw [gui_init_data_dropdown]
  by_cases h : other_views views = []
  · simp [h]
  · have hl : (other_views views).length ≠ 0 := fun h0 => h (List.length_eq_zero.1 h0)
    simp only [h, hl, if_false, Option.map_some', List.length_cons, List.length_map]
    exact ⟨rfl, trivial⟩

/-- Claim C8. The children of the panel's box are, view by view in registry order:
nothing for a view that is not loaded; for a loaded primary view at index `k` its
label, followed by a divider exactly when `k < num_views - 1`; for any other loaded
view the dropdown (first such view) or nothing, never a divider. For the registry
[lighttable A, darkroom B, non-primary C] the box is
[label A, divider, label B, divider, dropdown]: one divider between A and B and
nothing after the dropdown that holds C. -/
theorem gui_init_dividers :
    (∀ views : List dt_view_t, (gui_init views).widget =
      views.enum.flatMap (fun kv => box_children_of views kv.1 kv.2)) ∧
    (∀ a b c : dt_view_t, a.module = true → a.module_name = "lighttable" →
      b.module = true → b.module_name = "darkroom" →
      c.module = true → c.module_name ≠ "lighttable" → c.module_name ≠ "darkroom" →
      (gui_init [a, b, c]).widget =
        [.label a.name, .divider, .label b.name, .divider, .dropdown]) := by
  refine ⟨gui_init_widget, ?_⟩
  intro a b c ha1 ha2 hb1 hb2 hc1 hc2 hc3
  simp [gui_init, gui_init_loop, gui_init_body, is_top_level, ha1, ha2, hb1, hb2, hc1, hc2, hc3]

/-- The box built for lighttable, darkroom and map. -/
theorem gui_init_dividers_witness :
    (gui_init [lighttable_view, darkroom_view, map_view]).widget =
      [.label "lighttable", .divider, .label "darkroom", .divider, .dropdown] :=
  gui_init_dividers.2 lighttable_view darkroom_view map_view rfl rfl rfl rfl rfl
    (by decide) (by decide)

end Viewswitcher
